import Mathlib

/-!
Verification of the Orchestration & Interactive Session Core.

This file gives a shallow embedding of the relevant parts of the repository:

* `src/tools/shell_session.py` — the Session Manager: the sandboxed working
  directory resolution `_safe_cwd`, and the session-table operations
  `shell_session_start` / `shell_session_read` / `shell_session_send` /
  `shell_session_close`.
* `src/agents/orchestrator_agent.py` — the Clarification Loop
  (`run_requirement_workflow`), the Stage Execution Loop
  (`run_stage_execution`) and the salvage JSON parser (`_parse_json`).

Python values exchanged through JSON are embedded as the inductive type
`Json`.  The standard-library function `json.loads` is an external
collaborator and is passed as an explicit parameter
`loads : String → Option Json` (with `none` standing for a parse error);
`json.dumps` is not modelled — the traces below record the object that the
code would serialize, instead of its serialized text.  External tool peers
(the requirement-analysis tool and the stage-execution tool) answer with
free text; since the loops are deterministic in the sequence of peer
responses, a peer is embedded as a function `Nat → String` from the index
of the call to the response text.  Uncaught Python exceptions (a `TypeError`
raised by iterating a non-iterable) are modelled with an `Except` error
channel.
-/

/-- Embedded Python/JSON values, as produced by `json.loads`.  Numbers are
modelled as integers (no claim depends on float values). -/
inductive Json where
  | null
  | bool (b : Bool)
  | num (n : Int)
  | str (s : String)
  | arr (elems : List Json)
  | obj (fields : List (String × Json))
deriving Inhabited

/-- Python truthiness (`bool(x)`), for the values we model:
`None`, `False`, `0`, `""`, `[]` and `{}` are falsy. -/
def Json.truthy : Json → Bool
  | .null => false
  | .bool b => b
  | .num n => n != 0
  | .str s => s != ""
  | .arr xs => !xs.isEmpty
  | .obj kvs => !kvs.isEmpty

/-- `isinstance(x, dict)`. -/
def Json.isDict : Json → Bool
  | .obj _ => true
  | _ => false

/-- Python `x == s` for a string literal `s`: true exactly when `x` is a
string with the same characters (a value of any other type never equals a
string in Python). -/
def Json.eqStr (j : Json) (s : String) : Bool :=
  match j with
  | .str t => t == s
  | _ => false

/-- `d.get(k, default)` on a dict: the stored value when the key is present
(even a falsy one), otherwise the default.  On non-dicts this is only ever
used under an `isDict` guard; it returns the default there. -/
def Json.getD (j : Json) (k : String) (d : Json) : Json :=
  match j with
  | .obj kvs =>
    match kvs.find? (fun kv => kv.1 == k) with
    | some kv => kv.2
    | none => d
  | _ => d

/-- Python `for x in v` iteration: lists yield their elements, strings yield
their characters (as one-character strings), dicts yield their keys;
iterating any other value raises `TypeError`, modelled by `none`. -/
def pyIter : Json → Option (List Json)
  | .arr xs => some xs
  | .str s => some (s.data.map (fun c => Json.str (String.singleton c)))
  | .obj kvs => some (kvs.map (fun kv => Json.str kv.1))
  | _ => none

/-- An uncaught Python exception escaping one of the orchestration loops. -/
inductive PyErr where
  | typeError
deriving DecidableEq, Repr

/-!
## Sandboxed working-directory resolution (`_safe_cwd`)

`shell_session.py` lines 18–25:

```python
def _safe_cwd(cwd):
    root = os.path.abspath(os.path.join(os.path.dirname(__file__), '..', '..'))
    if not cwd:
        return root
    abs_cwd = os.path.abspath(os.path.join(root, cwd))
    if not abs_cwd.startswith(root):
        return root
    return abs_cwd
```

The fixed root is the absolute, normalized path of the repository root; it
is a parameter `root` here.  `os.path.join` and POSIX path normalization
are modelled on character lists.  The model covers the inputs the code can
produce: `root` is an absolute normalized path, so the argument of
`os.path.abspath` is always absolute and `abspath` reduces to `normpath`.
-/

/-- Split a character list on a separator character (`str.split` with a
one-character separator). -/
def splitOnChar (sep : Char) : List Char → List (List Char)
  | [] => [[]]
  | c :: cs =>
    let r := splitOnChar sep cs
    if c = sep then [] :: r
    else
      match r with
      | h :: t => (c :: h) :: t
      | [] => [[c]]

/-- The component-stack computation of `posixpath.normpath` on an absolute
path: empty and `.` components are dropped, `..` pops the last component
(at the root, `..` is dropped, as `normpath` does for absolute paths). -/
def normComps (comps : List (List Char)) : List (List Char) :=
  comps.foldl
    (fun acc c =>
      if c = [] ∨ c = ['.'] then acc
      else if c = ['.', '.'] then acc.dropLast
      else acc ++ [c])
    []

/-- Interleave `/` between components. -/
def joinComps : List (List Char) → List Char
  | [] => []
  | [c] => c
  | c :: cs => c ++ '/' :: joinComps cs

/-- `os.path.abspath` on an absolute path (= `posixpath.normpath`). -/
def os_path_abspath (p : String) : String :=
  String.mk ('/' :: joinComps (normComps (splitOnChar '/' p.data)))

/-- `os.path.join(a, b)` for a non-empty `a`: an absolute `b` replaces `a`,
otherwise the parts are joined with a single `/`. -/
def os_path_join (a b : String) : String :=
  if b.data.head? = some '/' then b
  else if a.data.getLast? = some '/' then String.mk (a.data ++ b.data)
  else String.mk (a.data ++ '/' :: b.data)

/-- `a.startswith(b)` (string prefix test on characters). -/
def pyStartsWith (s pre : String) : Bool :=
  pre.data.isPrefixOf s.data

/-- `shell_session.py` `_safe_cwd`, with the fixed sandbox root as the
parameter `root` and Python's `Optional[str]` argument as `Option String`
(`not cwd` is true for `None` and for the empty string). -/
def _safe_cwd (root : String) (cwd : Option String) : String :=
  match cwd with
  | none => root
  | some c =>
    if c = "" then root
    else
      let abs_cwd := os_path_abspath (os_path_join root c)
      if pyStartsWith abs_cwd root then abs_cwd else root

/-- `p` is the sandbox root itself or a path strictly inside it (a true
descendant, i.e. the root followed by a path separator). -/
def underRoot (root p : String) : Bool :=
  p == root || (root.data ++ ['/']).isPrefixOf p.data

/-!
## The Session Manager (`shell_session.py`)

The module-level table `_SESSIONS` maps session identifiers to records
holding the process handle, the PTY master descriptor and the resolved
working directory.  The table is embedded as an association list with
Python-dict semantics (one binding per key); the OS-level state of a
session (the process and its exit status, the descriptor) is embedded as
the record `SessionRec`.  `proc.poll()` / `proc.returncode` are modelled by
the field `exitCode` (`none` while the process runs).  The operations
return the JSON payload the Python code serializes with `_to_json`,
together with the table after the call; the text drained from the PTY by
`_read_available` is an input of `shell_session_read` (it is OS state, not
table state).
-/

/-- The OS-side state of one interactive session: process id, PTY master
descriptor, resolved working directory, and the process exit status as
`proc.poll()` reports it (`none` = still running). -/
structure SessionRec where
  pid : Nat
  fd : Nat
  cwd : String
  exitCode : Option Int
deriving DecidableEq, Repr

/-- The `_SESSIONS` table. -/
def SessionTable := List (String × SessionRec)

/-- `_SESSIONS.get(sid)`. -/
def lookupSession (t : SessionTable) (sid : String) : Option SessionRec :=
  match t.find? (fun kv => kv.1 == sid) with
  | some kv => some kv.2
  | none => none

/-- `_SESSIONS[sid] = rec` (dict assignment: replaces any previous binding). -/
def insertSession (t : SessionTable) (sid : String) (rec : SessionRec) : SessionTable :=
  (sid, rec) :: (t.filter (fun kv => !(kv.1 == sid)))

/-- `_SESSIONS.pop(sid, None)`'s effect on the table. -/
def popSession (t : SessionTable) (sid : String) : SessionTable :=
  t.filter (fun kv => !(kv.1 == sid))

/-- The `{"ok": False, "error": "session_not_found"}` payload. -/
def notFoundPayload : Json :=
  Json.obj [("ok", Json.bool false), ("error", Json.str "session_not_found")]

/-- `exit_code` field value: `proc.returncode` or `None`. -/
def exitCodeJson : Option Int → Json
  | none => Json.null
  | some c => Json.num c

/-- `shell_session_start` (lines 93–120) on a successful spawn: the fresh
identifier produced from `uuid` and the spawned session are parameters;
`initial_output` is the text drained during the start grace window. -/
def shell_session_start (t : SessionTable) (sid : String) (rec : SessionRec)
    (initialOutput : String) : Json × SessionTable :=
  (Json.obj [("ok", Json.bool true), ("session_id", Json.str sid),
             ("pid", Json.num rec.pid), ("started", Json.bool true),
             ("initial_output", Json.str initialOutput), ("closed", Json.bool false)],
   insertSession t sid rec)

/-- `shell_session_read` (lines 123–146); `osOutput` is the text that
`_read_available` drains from the PTY on this call. -/
def shell_session_read (t : SessionTable) (sid : String) (osOutput : String) :
    Json × SessionTable :=
  match lookupSession t sid with
  | none => (notFoundPayload, t)
  | some s =>
    (Json.obj [("ok", Json.bool true), ("session_id", Json.str sid),
               ("closed", Json.bool s.exitCode.isSome),
               ("exit_code", exitCodeJson s.exitCode),
               ("output", Json.str osOutput)], t)

/-- `data.endswith("\n")`: the last character is a newline. -/
def endsWithNewline (data : String) : Bool :=
  data.data.getLast? = some '\n'

/-- `data + "\n" if append_newline and not data.endswith("\n") else data`
(lines 161–162). -/
def appendNewlineIfNeeded (data : String) (appendNewline : Bool) : String :=
  if appendNewline && !(endsWithNewline data) then data ++ "\n" else data

/-- The number of bytes of `data.encode("utf-8")`: the sum of the UTF-8
sizes of the characters. -/
def utf8Len (s : String) : Nat :=
  (s.data.map Char.utf8Size).sum

/-- `shell_session_send` (lines 149–174) with a successful `os.write`;
`"bytes"` is `len(data)` in Python, i.e. the number of characters of the
(possibly newline-extended) string, not its UTF-8 byte count. -/
def shell_session_send (t : SessionTable) (sid : String) (data : String)
    (appendNewline : Bool) : Json × SessionTable :=
  match lookupSession t sid with
  | none => (notFoundPayload, t)
  | some _ =>
    let d := appendNewlineIfNeeded data appendNewline
    (Json.obj [("ok", Json.bool true), ("session_id", Json.str sid),
               ("bytes", Json.num d.length)], t)

/-- `shell_session_close` (lines 177–202): `pop` first, so an unknown
identifier reports `session_not_found`; otherwise terminate/close (modelled
as succeeding) and report `proc.returncode`. -/
def shell_session_close (t : SessionTable) (sid : String) : Json × SessionTable :=
  match lookupSession t sid with
  | none => (notFoundPayload, t)
  | some s =>
    (Json.obj [("ok", Json.bool true), ("closed", Json.bool true),
               ("exit_code", exitCodeJson s.exitCode)],
     popSession t sid)

/-!
## The Tool-Call Bridge salvage parser (`orchestrator_agent.py` `_parse_json`)

```python
@staticmethod
def _parse_json(text):
    try:
        return json.loads(text)
    except Exception:
        text = text.strip()
        if '{' in text and '}' in text:
            s = text.find('{')
            e = text.rfind('}')
            try:
                return json.loads(text[s:e+1])
            except Exception:
                return {"raw": text}
        return {"raw": text}
```

`json.loads` is the parameter `loads`; note that after the strict parse
fails the code rebinds `text` to `text.strip()`, so the brace search, the
salvage substring and the `"raw"` wrapping all use the stripped text.
-/

/-- `str.strip()`: drop leading and trailing whitespace. -/
def pyStrip (s : String) : String :=
  String.mk (((s.data.dropWhile Char.isWhitespace).reverse.dropWhile
    Char.isWhitespace).reverse)

/-- `c in text` for a character `c`. -/
def strContainsChar (s : String) (c : Char) : Bool :=
  s.data.contains c

/-- `text[text.find('{') : text.rfind('}') + 1]` — the slice from the first
occurrence of `{` to the last occurrence of `}` (empty, like the Python
slice, when the last `}` is before the first `{`); only evaluated when both
characters occur. -/
def braceSlice (s : String) : String :=
  match s.data.findIdx? (fun c => c == '{'), s.data.reverse.findIdx? (fun c => c == '}') with
  | some i, some jr => String.mk ((s.data.take (s.data.length - jr)).drop i)
  | _, _ => ""

/-- `_parse_json` (lines 188–202), parametrized by the strict JSON parser. -/
def _parse_json (loads : String → Option Json) (text : String) : Json :=
  match loads text with
  | some v => v
  | none =>
    let t := pyStrip text
    if strContainsChar t '{' && strContainsChar t '}' then
      match loads (braceSlice t) with
      | some v => v
      | none => Json.obj [("raw", Json.str t)]
    else Json.obj [("raw", Json.str t)]

/-!
## The Clarification Loop (`run_requirement_workflow`, lines 77–144)

The loop is embedded with explicit fuel: Python's `while rounds < N` with
`rounds` incremented exactly once per iteration is the recursion
`runReqAux` on `fuel = N - rounds`.  Each iteration makes exactly one
`requirement_analyze` tool call; the returned trace lists, in order, the
input the code holds for each call that was made (`current_input`): the
initial requirement document for the first call, and afterwards the object
passed to `json.dumps` to build the next input.  The human-answer callback
`ask_user_fn` may be absent, may raise, or may return any value.
-/

/-- What `current_input` holds when an analysis call is made: the initial
requirement document, or the answers object the previous iteration encoded
with `json.dumps`. -/
inductive WfInput where
  | initialDoc (doc : String)
  | payload (p : Json)

/-- Outcome of invoking `ask_user_fn(questions)`: an exception, or a
returned value. -/
inductive CbResult where
  | raises
  | returns (v : Json)

/-- Result of the loop: a returned dict, or an uncaught exception. -/
def PyResult := Except PyErr Json

/-- `{"answers": [], "policy": "use_fallback_assumptions"}` (lines 97–100). -/
def noQuestionsPayload : Json :=
  Json.obj [("answers", Json.arr []), ("policy", Json.str "use_fallback_assumptions")]

/-- `{"answers": [], "policy": "merge_answers_and_do_not_repeat"}` — the
initial `answers_payload` (line 106), kept as-is when the callback raises
or returns a falsy value. -/
def defaultAnswersPayload : Json :=
  Json.obj [("answers", Json.arr []), ("policy", Json.str "merge_answers_and_do_not_repeat")]

/-- One fallback answer built in the no-callback branch (lines 114–119). -/
def fallbackAnswer (q : Json) : Json :=
  Json.obj [("id", q.getD "id" Json.null),
            ("answer", q.getD "fallback_assumption" (Json.str "使用保守假设推进"))]

/-- The answers collected in the no-callback branch: one per object-shaped
question with a truthy `id`. -/
def fallbackAnswers (qs : List Json) : List Json :=
  qs.filterMap (fun q =>
    if q.isDict && (q.getD "id" Json.null).truthy then some (fallbackAnswer q) else none)

/-- One forced-convergence assumption (lines 130–134). -/
def mkAssumption (q : Json) : Json :=
  Json.obj [("text", q.getD "fallback_assumption" (Json.str "保守假设")),
            ("risk_level", Json.str "high"),
            ("rollback_hint", Json.str "待获答复后修正计划")]

/-- `last_json.get("questions", []) or []` (line 128). -/
def forcedQuestionsValue (lj : Json) : Json :=
  let q := lj.getD "questions" (Json.arr [])
  if q.truthy then q else Json.arr []

/-- The forced-convergence document assembled on lines 135–142 from the
last-seen parsed document `lj`, whose questions iterate to `qs`. -/
def forcedDoc (lj : Json) (qs : List Json) : Json :=
  Json.obj [("version", lj.getD "version" (Json.str "1.0")),
            ("status", Json.str "plan_ready"),
            ("requirement_summary", lj.getD "requirement_summary" (Json.str "")),
            ("assumptions", Json.arr (qs.filterMap
              (fun q => if q.isDict then some (mkAssumption q) else none))),
            ("stages", lj.getD "stages" (Json.arr [])),
            ("plan_markdown", lj.getD "plan_markdown" (Json.str ""))]

/-- `{"error": "no_requirement_output"}` (line 144). -/
def noOutputError : Json := Json.obj [("error", Json.str "no_requirement_output")]

/-- What the function returns once the round budget is exhausted
(lines 125–144): forced convergence from the last parsed document when one
exists (`if last_json:`), else the `no_requirement_output` error.
Iterating a truthy non-iterable `questions` value raises `TypeError`. -/
def forcedConverge : Option Json → PyResult
  | none => Except.ok noOutputError
  | some lj =>
    if lj.truthy then
      match pyIter (forcedQuestionsValue lj) with
      | none => Except.error PyErr.typeError
      | some qs => Except.ok (forcedDoc lj qs)
    else Except.ok noOutputError

/-- `questions = data.get("questions") or []` (line 94). -/
def questionsValue (d : Json) : Json :=
  if (d.getD "questions" Json.null).truthy then d.getD "questions" Json.null
  else Json.arr []

/-- Outcome of one iteration of the `while` body (lines 84–121): either the
function returns immediately (`ret`: invalid output, `plan_ready`, or an
uncaught `TypeError`), or the loop continues with the object that
`json.dumps` will encode as the next `current_input` (`next`). -/
inductive RoundOutcome where
  | ret (r : PyResult)
  | next (p : Json)

/-- One iteration of the loop body on the response text `res` (lines
84–121): parse the response; fail fast without a usable status; return a
`plan_ready` document; with no questions continue with the
`use_fallback_assumptions` policy input; otherwise consult the callback
when configured (keeping the default payload when it raises or returns a
falsy value) or build one fallback answer per object-shaped question with
a truthy id — iterating a non-iterable questions value raises. -/
def roundStep (loads : String → Option Json) (ask : Option (Json → CbResult))
    (res : String) : RoundOutcome :=
  if !((_parse_json loads res).isDict &&
       ((_parse_json loads res).getD "status" Json.null).truthy) then
    RoundOutcome.ret (Except.ok (Json.obj
      [("error", Json.str "invalid_requirement_output"), ("raw", Json.str res)]))
  else if ((_parse_json loads res).getD "status" Json.null).eqStr "plan_ready" then
    RoundOutcome.ret (Except.ok (_parse_json loads res))
  else if !(questionsValue (_parse_json loads res)).truthy then
    RoundOutcome.next noQuestionsPayload
  else
    match ask with
    | some f =>
      RoundOutcome.next
        (match f (questionsValue (_parse_json loads res)) with
         | CbResult.raises => defaultAnswersPayload
         | CbResult.returns v => if v.truthy then v else defaultAnswersPayload)
    | none =>
      match pyIter (questionsValue (_parse_json loads res)) with
      | none => RoundOutcome.ret (Except.error PyErr.typeError)
      | some qs =>
        RoundOutcome.next (Json.obj [("answers", Json.arr (fallbackAnswers qs)),
          ("policy", Json.str "merge_answers_and_do_not_repeat")])

/-- The `while rounds < max_clarify_rounds` loop (lines 83–123), with
`fuel = max_clarify_rounds - rounds` and `callIdx` the number of analysis
calls already made; on a continuing round, `last_json` becomes the parsed
response.  Returns the function result together with the trace of
`current_input` values, one per analysis call made. -/
def runReqAux (loads : String → Option Json) (peer : Nat → String)
    (ask : Option (Json → CbResult)) :
    Nat → Nat → WfInput → Option Json → PyResult × List WfInput
  | 0, _, _, lastJson => (forcedConverge lastJson, [])
  | fuel+1, callIdx, input, _lastJson =>
    match roundStep loads ask (peer callIdx) with
    | RoundOutcome.ret r => (r, [input])
    | RoundOutcome.next p =>
      (((runReqAux loads peer ask fuel (callIdx+1) (WfInput.payload p)
          (some (_parse_json loads (peer callIdx)))).1),
       input :: (runReqAux loads peer ask fuel (callIdx+1) (WfInput.payload p)
          (some (_parse_json loads (peer callIdx)))).2)

/-- `run_requirement_workflow(requirement_doc)` with the configured bound
`max_clarify_rounds`: result and the trace of analysis-call inputs. -/
def run_requirement_workflow (loads : String → Option Json) (peer : Nat → String)
    (ask : Option (Json → CbResult)) (requirement_doc : String)
    (maxClarifyRounds : Nat) : PyResult × List WfInput :=
  runReqAux loads peer ask maxClarifyRounds 0 (WfInput.initialDoc requirement_doc) none

/-!
## The Stage Execution Loop (`run_stage_execution`, lines 146–177)

`stages = requirement_json.get("stages") or []`; each object-shaped stage
is attempted up to `max_stage_attempts` times through the `dev_run` tool
(non-dict entries are skipped).  The delegate tool is embedded as a
function `Nat → String` from the global `dev_run` call index to the
response text (the loop is deterministic in this response sequence; the
arguments assembled for the call — name, goal, tasks, validation,
constraints — do not influence the model's peer and are not recorded).
The inner `while attempts < max` loop is the recursion `stageLoop` on
`fuel = max - attempts`; it returns the summary entry appended for the
stage (none when `max = 0`, where the Python loop body never runs and no
entry is appended) and the number of `dev_run` calls made.
-/

/-- The `complete` summary entry (line 164). -/
def completeEntry (name report : Json) : Json :=
  Json.obj [("stage", name), ("status", Json.str "complete"), ("report", report)]

/-- The `failed` summary entry with its escalation token (lines 168–173). -/
def failedEntry (name report : Json) : Json :=
  Json.obj [("stage", name), ("status", Json.str "failed"), ("report", report),
            ("decision", Json.str "rollback_or_degrade")]

/-- `isinstance(report, dict) and report.get("success")` (line 163). -/
def reportSuccess (report : Json) : Bool :=
  report.isDict && (report.getD "success" Json.null).truthy

/-- The per-stage retry loop (lines 153–175): one `dev_run` call per
iteration; a successful report ends the stage as `complete`, exhausting the
attempts ends it as `failed` with the last report. -/
def stageLoop (loads : String → Option Json) (devPeer : Nat → String) (name : Json) :
    Nat → Nat → Option Json × Nat
  | 0, _ => (none, 0)
  | fuel+1, callIdx =>
    if reportSuccess (_parse_json loads (devPeer callIdx)) then
      (some (completeEntry name (_parse_json loads (devPeer callIdx))), 1)
    else
      match fuel with
      | 0 => (some (failedEntry name (_parse_json loads (devPeer callIdx))), 1)
      | f+1 =>
        ((stageLoop loads devPeer name (f+1) (callIdx+1)).1,
         (stageLoop loads devPeer name (f+1) (callIdx+1)).2 + 1)

/-- `for stage in stages` (lines 150–175), threading the global `dev_run`
call index; returns the summary entries in plan order and the total number
of `dev_run` calls. -/
def runStages (loads : String → Option Json) (devPeer : Nat → String)
    (maxAttempts : Nat) : List Json → Nat → List Json × Nat
  | [], _ => ([], 0)
  | st :: rest, callIdx =>
    if st.isDict then
      ((stageLoop loads devPeer (st.getD "name" Json.null) maxAttempts callIdx).1.toList ++
         (runStages loads devPeer maxAttempts rest (callIdx +
           (stageLoop loads devPeer (st.getD "name" Json.null) maxAttempts callIdx).2)).1,
       (stageLoop loads devPeer (st.getD "name" Json.null) maxAttempts callIdx).2 +
         (runStages loads devPeer maxAttempts rest (callIdx +
           (stageLoop loads devPeer (st.getD "name" Json.null) maxAttempts callIdx).2)).2)
    else
      runStages loads devPeer maxAttempts rest callIdx

/-- `requirement_json.get("stages") or []` (line 148). -/
def stagesValue (requirementJson : Json) : Json :=
  let s := requirementJson.getD "stages" Json.null
  if s.truthy then s else Json.arr []

/-- `run_stage_execution(requirement_json, constraints)`: the final
`{"execution_summary": [...]}` (or an uncaught `TypeError` when the
`stages` value is truthy but not iterable), together with the total number
of `dev_run` calls made. -/
def run_stage_execution (loads : String → Option Json) (devPeer : Nat → String)
    (requirementJson : Json) (maxStageAttempts : Nat) : PyResult × Nat :=
  match pyIter (stagesValue requirementJson) with
  | none => (Except.error PyErr.typeError, 0)
  | some sts =>
    (Except.ok (Json.obj [("execution_summary",
       Json.arr (runStages loads devPeer maxStageAttempts sts 0).1)]),
     (runStages loads devPeer maxStageAttempts sts 0).2)

/-!
## Predicates and fixtures for the orchestration claims
-/

/-- The result of `last_json` after running `fuel` further rounds from call
index `callIdx`: unchanged when no round runs, otherwise the parse of the
last response. -/
def lastAfter (loads : String → Option Json) (peer : Nat → String)
    (callIdx fuel : Nat) (lastJson : Option Json) : Option Json :=
  match fuel with
  | 0 => lastJson
  | _+1 => some (_parse_json loads (peer (callIdx + fuel - 1)))

/-- A peer response that keeps the loop in its clarification rounds: it
parses to a dict with a truthy status other than `plan_ready` whose
`questions` value, when truthy, is iterable (so no `TypeError` is raised
when the loop or forced convergence iterates it). -/
def validNonReady (loads : String → Option Json) (r : String) : Bool :=
  let d := _parse_json loads r
  d.isDict && (d.getD "status" Json.null).truthy &&
    !((d.getD "status" Json.null).eqStr "plan_ready") &&
    (!(d.getD "questions" Json.null).truthy ||
      (pyIter (d.getD "questions" Json.null)).isSome)

/-- Returned results of the Clarification Loop are error objects (truthy
`error` field) or documents whose status is `plan_ready`; an uncaught
exception returns nothing. -/
def resultStatusOk : Except PyErr Json → Bool
  | Except.error _ => true
  | Except.ok j =>
    (j.getD "status" Json.null).eqStr "plan_ready" || (j.getD "error" Json.null).truthy

/-- The summary entry recorded for a stage: it names the stage, and is
either `complete` with a successful parsed report, or `failed` with the
`rollback_or_degrade` escalation token and a non-successful last report. -/
def entryShape (st entry : Json) : Prop :=
  entry.getD "stage" Json.null = st.getD "name" Json.null ∧
  ((entry.getD "status" Json.null = Json.str "complete" ∧
      reportSuccess (entry.getD "report" Json.null) = true) ∨
   (entry.getD "status" Json.null = Json.str "failed" ∧
      entry.getD "decision" Json.null = Json.str "rollback_or_degrade" ∧
      reportSuccess (entry.getD "report" Json.null) = false))

/-- A parsed analysis response whose truthy `questions` value is the
non-iterable number `5`. -/
def respBadQuestions : Json :=
  Json.obj [("status", Json.str "clarification_needed"), ("questions", Json.num 5)]

/-- A strict parser recognizing only the response text `"R"`. -/
def loadsBadQuestions : String → Option Json :=
  fun s => if s = "R" then some respBadQuestions else none

/-- A well-formed clarification response with no questions. -/
def respNoQuestions : Json :=
  Json.obj [("status", Json.str "clarification_needed"), ("questions", Json.arr [])]

/-- A strict parser recognizing only the response text `"Q"`. -/
def loadsNoQuestions : String → Option Json :=
  fun s => if s = "Q" then some respNoQuestions else none

/-- A `plan_ready` response carrying no stages at all. -/
def respBareReady : Json := Json.obj [("status", Json.str "plan_ready")]

/-- A strict parser recognizing only the response text `"P"`. -/
def loadsBareReady : String → Option Json :=
  fun s => if s = "P" then some respBareReady else none

/-- A question with an identifier and a fallback assumption. -/
def qFallback : Json :=
  Json.obj [("id", Json.str "q1"), ("fallback_assumption", Json.str "assume latest LTS")]

/-- A clarification response carrying the one question `qFallback`. -/
def respOneQuestion : Json :=
  Json.obj [("status", Json.str "clarification_needed"),
            ("questions", Json.arr [qFallback])]

/-- A strict parser recognizing only the response text `"C"`. -/
def loadsOneQuestion : String → Option Json :=
  fun s => if s = "C" then some respOneQuestion else none

/-- A clarification response whose single outstanding question is a bare
string, not an object. -/
def respStrQuestion : Json :=
  Json.obj [("status", Json.str "clarification_needed"),
            ("questions", Json.arr [Json.str "which database?"])]

/-- A strict parser recognizing only the response text `"S"`. -/
def loadsStrQuestion : String → Option Json :=
  fun s => if s = "S" then some respStrQuestion else none

/-- A rich clarification response: one object question plus stages,
summary and narrative to be carried forward by forced convergence. -/
def respRich : Json :=
  Json.obj [("status", Json.str "clarification_needed"),
            ("questions", Json.arr [qFallback]),
            ("stages", Json.arr [Json.obj [("name", Json.str "build")]]),
            ("requirement_summary", Json.str "a summary"),
            ("plan_markdown", Json.str "# plan")]

/-- A strict parser recognizing only the response text `"W"`. -/
def loadsRich : String → Option Json :=
  fun s => if s = "W" then some respRich else none

/-- Three object-shaped stages for the stage-execution example. -/
def stage1 : Json := Json.obj [("name", Json.str "s1"), ("goal", Json.str "g1")]

/-- Second stage of the example plan. -/
def stage2 : Json := Json.obj [("name", Json.str "s2"), ("goal", Json.str "g2")]

/-- Third stage of the example plan. -/
def stage3 : Json := Json.obj [("name", Json.str "s3"), ("goal", Json.str "g3")]

/-- The 3-stage plan of the claim's example. -/
def plan3 : Json :=
  Json.obj [("status", Json.str "plan_ready"),
            ("stages", Json.arr [stage1, stage2, stage3])]

/-- A successful `dev_run` report. -/
def devOk : Json := Json.obj [("success", Json.bool true)]

/-- A failed `dev_run` report. -/
def devFail : Json := Json.obj [("success", Json.bool false)]

/-- A strict parser for the two `dev_run` response texts. -/
def loadsDev : String → Option Json :=
  fun s => if s = "OK" then some devOk else if s = "NO" then some devFail else none

/-- A `dev_run` peer for which stage 1 succeeds on its first call (call 0),
stage 2 fails all three attempts (calls 1–3) and stage 3 succeeds on its
first call (call 4). -/
def devPeer3 : Nat → String :=
  fun k => if k = 0 then "OK" else if k ≤ 3 then "NO" else "OK"

/-- A session whose process has already exited, still in the table. -/
def exitedSession : SessionRec :=
  { pid := 4242, fd := 5, cwd := "/home/user/ai-agent-workflow", exitCode := some 0 }

/-- A table holding only the exited session. -/
def tableWithExited : SessionTable := [("sh_dead", exitedSession)]

/-!
## Claims about the Session Manager and the sandbox
-/

/-- C1: evaluation at the failing input.  The traversal `"../../etc"` is
clamped to the root, as the claim says; but the prefix test
`abs_cwd.startswith(root)` admits sibling directories whose name extends
the root's name: `"../ai-agent-workflow2"` resolves outside the sandbox
root `/home/user/ai-agent-workflow` and is not clamped, so the spawned
process's cwd is neither the root nor a descendant of it. -/
theorem c1_safe_cwd_escape :
    _safe_cwd "/home/user/ai-agent-workflow" (some "../../etc") =
      "/home/user/ai-agent-workflow" ∧
    _safe_cwd "/home/user/ai-agent-workflow" (some "../ai-agent-workflow2") =
      "/home/user/ai-agent-workflow2" ∧
    underRoot "/home/user/ai-agent-workflow" "/home/user/ai-agent-workflow2" = false := by
  decide

/-- An identifier just written by dict assignment is found. -/
lemma lookup_insert (t : SessionTable) (sid : String) (rec : SessionRec) :
    lookupSession (insertSession t sid rec) sid = some rec := by
  unfold lookupSession insertSession
  rw [List.find?_cons_of_pos _ (by simp)]

/-- After `pop`, the identifier is gone from the table. -/
lemma lookup_pop (t : SessionTable) (sid : String) :
    lookupSession (popSession t sid) sid = none := by
  have h : (popSession t sid).find? (fun kv => kv.1 == sid) = none := by
    rw [List.find?_eq_none]
    intro kv hkv
    simpa using (List.mem_filter.mp hkv).2
  unfold lookupSession
  rw [h]

/-- Closing a known session pops it and reports ok. -/
lemma close_found (t : SessionTable) (sid : String) (s : SessionRec)
    (h : lookupSession t sid = some s) :
    shell_session_close t sid =
      (Json.obj [("ok", Json.bool true), ("closed", Json.bool true),
                 ("exit_code", exitCodeJson s.exitCode)], popSession t sid) := by
  unfold shell_session_close
  rw [h]

/-- C8: every `read`, `send` or `close` on an identifier absent from the
session table returns the structured `{"ok": false, "error":
"session_not_found"}` payload and leaves the table unchanged; and after
start-then-close, the identifier is out of the table, so a second `close`
and any subsequent `read`/`send` on it all yield `session_not_found`. -/
theorem c8_session_not_found :
    (∀ (t : SessionTable) (sid out data : String) (nl : Bool),
      lookupSession t sid = none →
        shell_session_read t sid out = (notFoundPayload, t) ∧
        shell_session_send t sid data nl = (notFoundPayload, t) ∧
        shell_session_close t sid = (notFoundPayload, t)) ∧
    (∀ (t : SessionTable) (sid : String) (rec : SessionRec)
       (init out data : String) (nl : Bool),
      (shell_session_close ((shell_session_start t sid rec init).2) sid).1.getD
          "ok" Json.null = Json.bool true ∧
      shell_session_close ((shell_session_close
          ((shell_session_start t sid rec init).2) sid).2) sid =
        (notFoundPayload, (shell_session_close
          ((shell_session_start t sid rec init).2) sid).2) ∧
      shell_session_read ((shell_session_close
          ((shell_session_start t sid rec init).2) sid).2) sid out =
        (notFoundPayload, (shell_session_close
          ((shell_session_start t sid rec init).2) sid).2) ∧
      shell_session_send ((shell_session_close
          ((shell_session_start t sid rec init).2) sid).2) sid data nl =
        (notFoundPayload, (shell_session_close
          ((shell_session_start t sid rec init).2) sid).2)) := by
  constructor
  · intro t sid out data nl h
    refine ⟨?_, ?_, ?_⟩ <;> (first
      | (unfold shell_session_read; rw [h])
      | (unfold shell_session_send; rw [h])
      | (unfold shell_session_close; rw [h]))
  · intro t sid rec init out data nl
    have hstart : (shell_session_start t sid rec init).2 = insertSession t sid rec := rfl
    have hclose := close_found (insertSession t sid rec) sid rec (lookup_insert t sid rec)
    refine ⟨?_, ?_, ?_, ?_⟩
    · simp only [hstart, hclose]
      rfl
    · simp only [hstart, hclose]
      unfold shell_session_close
      rw [lookup_pop]
    · simp only [hstart, hclose]
      unfold shell_session_read
      rw [lookup_pop]
    · simp only [hstart, hclose]
      unfold shell_session_send
      rw [lookup_pop]

/-- C8 witness: the operations on an empty table, and the
start/close/close sequence, at concrete inputs. -/
theorem c8_session_not_found_witness :
    shell_session_read [] "sh_x" "" = (notFoundPayload, []) ∧
    shell_session_send [] "sh_x" "ls" true = (notFoundPayload, []) ∧
    shell_session_close [] "sh_x" = (notFoundPayload, []) := by
  have h := c8_session_not_found.1 [] "sh_x" "" "ls" true rfl
  exact ⟨h.1, h.2.1, h.2.2⟩

/-- C9 counterexample: a `read` on a session whose process has exited
reports `closed: true`, yet the identifier is NOT removed from the table
and a subsequent `read` on the same identifier still succeeds with
`ok: true` — it does not yield `session_not_found` (whose payload has
`ok: false`). -/
theorem c9_counterexample_read_keeps_exited_session :
    (shell_session_read tableWithExited "sh_dead" "").1.getD "closed" Json.null =
      Json.bool true ∧
    (shell_session_read tableWithExited "sh_dead" "").2 = tableWithExited ∧
    lookupSession (shell_session_read tableWithExited "sh_dead" "").2 "sh_dead" =
      some exitedSession ∧
    (shell_session_read ((shell_session_read tableWithExited "sh_dead" "").2)
        "sh_dead" "").1.getD "ok" Json.null = Json.bool true ∧
    notFoundPayload.getD "ok" Json.null = Json.bool false := by
  exact ⟨rfl, rfl, rfl, rfl, rfl⟩

/-- C9 (amended): `read` never destroys a session.  Discovering process
exit (`closed: true` in the payload) leaves the table unchanged and the
identifier still bound, so subsequent operations do not yield
`session_not_found`; sessions are reclaimed only by an explicit `close`. -/
theorem c9_read_reports_exit_but_does_not_reclaim
    (t : SessionTable) (sid out : String) (s : SessionRec)
    (h : lookupSession t sid = some s) :
    (shell_session_read t sid out).2 = t ∧
    (shell_session_read t sid out).1 =
      Json.obj [("ok", Json.bool true), ("session_id", Json.str sid),
                ("closed", Json.bool s.exitCode.isSome),
                ("exit_code", exitCodeJson s.exitCode),
                ("output", Json.str out)] ∧
    lookupSession (shell_session_read t sid out).2 sid = some s := by
  unfold shell_session_read
  rw [h]
  exact ⟨rfl, rfl, h⟩

/-- C9 witness: the amended theorem applied to the exited session. -/
theorem c9_read_reports_exit_witness :
    (shell_session_read tableWithExited "sh_dead" "bye").2 = tableWithExited ∧
    (shell_session_read tableWithExited "sh_dead" "bye").1 =
      Json.obj [("ok", Json.bool true), ("session_id", Json.str "sh_dead"),
                ("closed", Json.bool true), ("exit_code", Json.num 0),
                ("output", Json.str "bye")] ∧
    lookupSession (shell_session_read tableWithExited "sh_dead" "bye").2 "sh_dead" =
      some exitedSession :=
  c9_read_reports_exit_but_does_not_reclaim tableWithExited "sh_dead" "bye"
    exitedSession rfl

/-- `(s ++ t).data = s.data ++ t.data`. -/
lemma data_append (s t : String) : (s ++ t).data = s.data ++ t.data := rfl

/-- A character outside the ASCII range needs at least two UTF-8 bytes. -/
lemma two_le_utf8Size_of_nonascii (c : Char) (h : 128 ≤ c.toNat) : 2 ≤ c.utf8Size := by
  have h1 : ¬ (c.val ≤ UInt32.ofNatCore 0x7F (by decide)) := by
    intro hle
    have h2 : c.val.toNat ≤ 127 := hle
    have h3 : c.toNat = c.val.toNat := rfl
    omega
  unfold Char.utf8Size
  rw [if_neg h1]
  split_ifs <;> omega

/-- Every character needs at least one UTF-8 byte, so the character count
bounds the encoded byte count. -/
lemma length_le_utf8Sum (l : List Char) : l.length ≤ (l.map Char.utf8Size).sum := by
  induction l with
  | nil => simp
  | cons c cs ih =>
    simp only [List.map_cons, List.sum_cons, List.length_cons]
    have := Char.utf8Size_pos c
    omega

/-- With at least one non-ASCII character the bound is strict. -/
lemma length_lt_utf8Sum (l : List Char) (c : Char) (hc : c ∈ l) (h : 128 ≤ c.toNat) :
    l.length < (l.map Char.utf8Size).sum := by
  induction l with
  | nil => cases hc
  | cons d ds ih =>
    simp only [List.map_cons, List.sum_cons, List.length_cons]
    rcases List.mem_cons.mp hc with h1 | h1
    · subst h1
      have h2 := two_le_utf8Size_of_nonascii c h
      have h3 := length_le_utf8Sum ds
      omega
    · have h2 := ih h1
      have h3 := Char.utf8Size_pos d
      omega

/-- C10: on a known session, `send` appends a trailing newline exactly when
`append_newline` is true and the data does not already end with one, and
the reported `bytes` field is the Python `len` of the possibly
newline-extended data — its character count — which is strictly smaller
than the UTF-8 byte count actually written whenever the data contains a
non-ASCII character. -/
theorem c10_send_newline_and_bytes (t : SessionTable) (sid : String) (s : SessionRec)
    (data : String) (nl : Bool) (h : lookupSession t sid = some s) :
    (shell_session_send t sid data nl).1 =
      Json.obj [("ok", Json.bool true), ("session_id", Json.str sid),
                ("bytes", Json.num ((appendNewlineIfNeeded data nl).length : Int))] ∧
    ((nl = true ∧ endsWithNewline data = false) ↔
        appendNewlineIfNeeded data nl = data ++ "\n") ∧
    ((∃ c ∈ data.data, 128 ≤ c.toNat) →
        (appendNewlineIfNeeded data nl).length <
          utf8Len (appendNewlineIfNeeded data nl)) := by
  refine ⟨?_, ⟨?_, ?_⟩, ?_⟩
  · unfold shell_session_send
    rw [h]
  · rintro ⟨h1, h2⟩
    unfold appendNewlineIfNeeded
    rw [h1, h2]
    rfl
  · intro heq
    by_contra hn
    have hcond : (nl && !endsWithNewline data) = false := by
      cases nl <;> cases hEW : endsWithNewline data <;> simp_all
    unfold appendNewlineIfNeeded at heq
    rw [hcond] at heq
    simp only [Bool.false_eq_true, if_false] at heq
    have hlen := congrArg String.length heq
    have hdat : (data ++ "\n").length = data.length + 1 := by
      show (data ++ "\n").data.length = data.data.length + 1
      rw [data_append]
      simp
    omega
  · rintro ⟨c, hc, hge⟩
    have hmem : c ∈ (appendNewlineIfNeeded data nl).data := by
      unfold appendNewlineIfNeeded
      split_ifs
      · rw [data_append]
        exact List.mem_append_left _ hc
      · exact hc
    have hlt := length_lt_utf8Sum (appendNewlineIfNeeded data nl).data c hmem hge
    exact hlt

/-- C10 witness: sending the non-ASCII text `"π"` with newline appending on
a known session. -/
theorem c10_send_newline_and_bytes_witness :
    (shell_session_send tableWithExited "sh_dead" "π" true).1 =
      Json.obj [("ok", Json.bool true), ("session_id", Json.str "sh_dead"),
                ("bytes", Json.num ((appendNewlineIfNeeded "π" true).length : Int))] ∧
    ((true = true ∧ endsWithNewline "π" = false) ↔
        appendNewlineIfNeeded "π" true = "π" ++ "\n") ∧
    ((∃ c ∈ "π".data, 128 ≤ c.toNat) →
        (appendNewlineIfNeeded "π" true).length <
          utf8Len (appendNewlineIfNeeded "π" true)) :=
  c10_send_newline_and_bytes tableWithExited "sh_dead" exitedSession "π" true rfl

/-!
## Claim C7: the salvage parser
-/

/-- C7: the salvage parser is total (it is a function returning a `Json`
for every input and every behaviour of the strict parser) and follows
exactly the claimed precedence: the strict parse's value when it succeeds;
otherwise, when the text contains both `{` and `}`, the parse of the
first-`{`-to-last-`}` slice when that succeeds; otherwise the (stripped)
text wrapped under the single key `"raw"`. -/
theorem c7_parse_json_total_precedence (loads : String → Option Json) (text : String) :
    (∃ v, loads text = some v ∧ _parse_json loads text = v) ∨
    (loads text = none ∧
      (strContainsChar (pyStrip text) '{' && strContainsChar (pyStrip text) '}') = true ∧
      ((∃ v, loads (braceSlice (pyStrip text)) = some v ∧ _parse_json loads text = v) ∨
       (loads (braceSlice (pyStrip text)) = none ∧
         _parse_json loads text = Json.obj [("raw", Json.str (pyStrip text))]))) ∨
    (loads text = none ∧
      (strContainsChar (pyStrip text) '{' && strContainsChar (pyStrip text) '}') = false ∧
      _parse_json loads text = Json.obj [("raw", Json.str (pyStrip text))]) := by
  cases h1 : loads text with
  | some v => exact Or.inl ⟨v, rfl, by simp [_parse_json, h1]⟩
  | none =>
    cases h2 : strContainsChar (pyStrip text) '{' && strContainsChar (pyStrip text) '}' with
    | false =>
      refine Or.inr (Or.inr ⟨rfl, rfl, ?_⟩)
      simp [_parse_json, h1, h2]
    | true =>
      cases h3 : loads (braceSlice (pyStrip text)) with
      | some v =>
        refine Or.inr (Or.inl ⟨rfl, rfl, Or.inl ⟨v, rfl, ?_⟩⟩)
        simp [_parse_json, h1, h2, h3]
      | none =>
        refine Or.inr (Or.inl ⟨rfl, rfl, Or.inr ⟨rfl, ?_⟩⟩)
        simp [_parse_json, h1, h2, h3]

/-!
## Claims about the Clarification Loop
-/

/-- Whenever at least one round of fuel remains, the trace starts with the
current input (one analysis call is made with it). -/
lemma runReqAux_trace_cons (loads : String → Option Json) (peer : Nat → String)
    (ask : Option (Json → CbResult)) (fuel callIdx : Nat) (input : WfInput)
    (lj : Option Json) :
    ∃ rest, (runReqAux loads peer ask (fuel+1) callIdx input lj).2 = input :: rest := by
  unfold runReqAux
  cases roundStep loads ask (peer callIdx) with
  | ret r => exact ⟨[], rfl⟩
  | next p => exact ⟨_, rfl⟩

/-- The loop makes at most `fuel` analysis calls. -/
lemma runReqAux_trace_le (loads : String → Option Json) (peer : Nat → String)
    (ask : Option (Json → CbResult)) :
    ∀ (fuel callIdx : Nat) (input : WfInput) (lj : Option Json),
      (runReqAux loads peer ask fuel callIdx input lj).2.length ≤ fuel := by
  intro fuel
  induction fuel with
  | zero => intro ci input lj; simp [runReqAux]
  | succ f ih =>
    intro ci input lj
    unfold runReqAux
    cases roundStep loads ask (peer ci) with
    | ret r => simp
    | next p =>
      simp only [List.length_cons]
      exact Nat.succ_le_succ (ih (ci+1) _ _)

/-- A round fed a `validNonReady` response always continues the loop. -/
lemma roundStep_next_of_valid (loads : String → Option Json)
    (ask : Option (Json → CbResult)) (r : String)
    (h : validNonReady loads r = true) :
    ∃ p, roundStep loads ask r = RoundOutcome.next p := by
  unfold validNonReady at h
  simp only [Bool.and_eq_true, Bool.or_eq_true, Bool.not_eq_true'] at h
  obtain ⟨⟨⟨hd, hs⟩, hnp⟩, hqi⟩ := h
  unfold roundStep
  rw [if_neg (by simp [hd, hs]), if_neg (by simp [hnp])]
  cases hq : (questionsValue (_parse_json loads r)).truthy with
  | false => rw [if_pos (by simp [hq])]; exact ⟨_, rfl⟩
  | true =>
    rw [if_neg (by simp [hq])]
    cases ask with
    | some f => exact ⟨_, rfl⟩
    | none =>
      have hqt : ((_parse_json loads r).getD "questions" Json.null).truthy = true := by
        by_contra hqf
        simp only [Bool.not_eq_true] at hqf
        simp only [questionsValue, hqf] at hq
        simp [Json.truthy] at hq
      rcases hqi with hql | hqs2
      · rw [hqt] at hql; cases hql
      · have hsame : questionsValue (_parse_json loads r) =
            (_parse_json loads r).getD "questions" Json.null := by
          simp [questionsValue, hqt]
        obtain ⟨qs, hqs3⟩ := Option.isSome_iff_exists.mp hqs2
        rw [hsame, hqs3]
        exact ⟨_, rfl⟩

/-- Against peer responses that always keep the loop clarifying, the loop
consumes its whole round budget (one analysis call per round) and then
forces convergence from the last parsed response. -/
lemma runReqAux_forced_of_valid (loads : String → Option Json) (peer : Nat → String)
    (ask : Option (Json → CbResult)) :
    ∀ (fuel callIdx : Nat) (input : WfInput) (lj : Option Json),
      (∀ k, k < fuel → validNonReady loads (peer (callIdx + k)) = true) →
      (runReqAux loads peer ask fuel callIdx input lj).2.length = fuel ∧
      (runReqAux loads peer ask fuel callIdx input lj).1 =
        forcedConverge (lastAfter loads peer callIdx fuel lj) := by
  intro fuel
  induction fuel with
  | zero => intro ci input lj h; exact ⟨rfl, rfl⟩
  | succ f ih =>
    intro ci input lj h
    obtain ⟨p, hp⟩ := roundStep_next_of_valid loads ask (peer ci)
      (by simpa using h 0 (by omega))
    unfold runReqAux
    rw [hp]
    have hrec := ih (ci+1) (WfInput.payload p) (some (_parse_json loads (peer ci)))
      (fun k hk => by
        have h2 := h (k+1) (by omega)
        have h3 : ci + (k + 1) = ci + 1 + k := by omega
        rw [h3] at h2
        exact h2)
    refine ⟨by simp [hrec.1], ?_⟩
    rw [hrec.2]
    congr 1
    cases f with
    | zero => simp [lastAfter]
    | succ g =>
      simp only [lastAfter]
      have h4 : ci + 1 + (g + 1) - 1 = ci + (g + 1 + 1) - 1 := by omega
      rw [h4]

/-- C2 (amended): for every round bound `N` and every peer, callback and
parser behaviour, the Clarification Loop makes at most `N` analysis calls
(it always terminates — the model is a total function on the round
budget); and against a peer whose every response parses to a dict with a
truthy status other than `plan_ready` (with iterable-when-truthy
questions), it makes exactly `N` analysis calls before returning.  The
original claim's "returning either an error object or a plan document" is
refuted by `c2_counterexample_uncaught_typeerror`: a truthy non-iterable
`questions` value makes the loop raise a `TypeError` instead. -/
theorem c2_call_bound_and_exact (loads : String → Option Json) (peer : Nat → String)
    (ask : Option (Json → CbResult)) (doc : String) (N : Nat) :
    (run_requirement_workflow loads peer ask doc N).2.length ≤ N ∧
    ((∀ k, k < N → validNonReady loads (peer k) = true) →
      (run_requirement_workflow loads peer ask doc N).2.length = N) := by
  constructor
  · exact runReqAux_trace_le loads peer ask N 0 _ _
  · intro h
    exact (runReqAux_forced_of_valid loads peer ask N 0 _ _
      (fun k hk => by simpa using h k hk)).1

/-- C2 witness: a peer that always answers `clarification_needed` with no
questions forces exactly 2 analysis calls for `maxClarifyRounds = 2`. -/
theorem c2_call_bound_witness :
    (run_requirement_workflow loadsNoQuestions (fun _ => "Q") none "doc" 2).2.length = 2 :=
  (c2_call_bound_and_exact loadsNoQuestions (fun _ => "Q") none "doc" 2).2 (by decide)

/-- C2 counterexample: with no callback configured and a peer response
parsing to `{"status": "clarification_needed", "questions": 5}`, the loop
raises an uncaught `TypeError` (iterating the number 5) after its single
analysis call — it terminates, but returns neither an error object nor a
plan document, contradicting the claim. -/
theorem c2_counterexample_uncaught_typeerror :
    (run_requirement_workflow loadsBadQuestions (fun _ => "R") none "doc" 1).1 =
      Except.error PyErr.typeError ∧
    (run_requirement_workflow loadsBadQuestions (fun _ => "R") none "doc" 1).2.length = 1 :=
  ⟨rfl, rfl⟩

/-- Forced convergence only produces `plan_ready` documents, error objects
or an exception. -/
lemma forcedConverge_status_ok (lj : Option Json) :
    resultStatusOk (forcedConverge lj) = true := by
  cases lj with
  | none => rfl
  | some d =>
    show resultStatusOk (if d.truthy = true then
      match pyIter (forcedQuestionsValue d) with
      | none => Except.error PyErr.typeError
      | some qs => Except.ok (forcedDoc d qs)
      else Except.ok noOutputError) = true
    by_cases ht : d.truthy = true
    · rw [if_pos ht]
      cases hpi : pyIter (forcedQuestionsValue d) with
      | none => rfl
      | some qs => rfl
    · rw [if_neg ht]
      rfl

/-- Every immediate return of a round is an error object, a `plan_ready`
document, or an exception. -/
lemma roundStep_cases (loads : String → Option Json)
    (ask : Option (Json → CbResult)) (res : String) :
    (∃ p, roundStep loads ask res = RoundOutcome.next p) ∨
    (∃ r, roundStep loads ask res = RoundOutcome.ret r ∧ resultStatusOk r = true) := by
  unfold roundStep
  split_ifs with h1 h2 h3
  · right; exact ⟨_, rfl, rfl⟩
  · right
    refine ⟨_, rfl, ?_⟩
    simp [resultStatusOk, h2]
  · left; exact ⟨_, rfl⟩
  · cases ask with
    | some f => left; exact ⟨_, rfl⟩
    | none =>
      cases hpi : pyIter (questionsValue (_parse_json loads res)) with
      | none => right; exact ⟨_, rfl, rfl⟩
      | some qs => left; exact ⟨_, rfl⟩

/-- C3 (amended): every value the Clarification Loop returns is either an
error object (truthy `error` field) or a document whose status is
`plan_ready` — in particular a document with status `clarification_needed`
is never returned, so the claim's second implication holds vacuously.  The
claim's first implication is refuted by
`c3_counterexample_plan_ready_without_stages`: the loop returns the peer's
`plan_ready` document unchanged, without enforcing that a stage is
present. -/
theorem c3_returned_docs_plan_ready_or_error (loads : String → Option Json)
    (peer : Nat → String) (ask : Option (Json → CbResult)) (doc : String) (N : Nat) :
    resultStatusOk (run_requirement_workflow loads peer ask doc N).1 = true := by
  unfold run_requirement_workflow
  suffices h : ∀ (fuel ci : Nat) (input : WfInput) (lj : Option Json),
      resultStatusOk (runReqAux loads peer ask fuel ci input lj).1 = true by
    exact h N 0 _ _
  intro fuel
  induction fuel with
  | zero => intro ci input lj; exact forcedConverge_status_ok lj
  | succ f ih =>
    intro ci input lj
    unfold runReqAux
    rcases roundStep_cases loads ask (peer ci) with ⟨p, hp⟩ | ⟨r, hr, hok⟩
    · rw [hp]
      exact ih (ci+1) _ _
    · rw [hr]
      exact hok

/-- C3 counterexample: a peer that immediately answers
`{"status": "plan_ready"}` (no stages at all) makes the loop return that
document unchanged: a returned `PlanDocument` with `status == plan_ready`
and zero stages, refuting the claimed loop-enforced invariant. -/
theorem c3_counterexample_plan_ready_without_stages :
    (run_requirement_workflow loadsBareReady (fun _ => "P") none "doc" 1).1 =
      Except.ok respBareReady ∧
    respBareReady.getD "status" Json.null = Json.str "plan_ready" ∧
    respBareReady.getD "stages" (Json.arr []) = Json.arr [] :=
  ⟨rfl, rfl, rfl⟩

/-- C4 (amended): in a clarification round with questions present, when the
configured human-answer callback raises, the loop keeps the DEFAULT payload
`{"answers": [], "policy": "merge_answers_and_do_not_repeat"}` as the next
round's input — an empty answers list, not one fallback-assumption answer
per question (those are built only when no callback is configured; see
`c4_counterexample_empty_answers_after_raise`). -/
theorem c4_callback_exception_default_payload (loads : String → Option Json)
    (peer : Nat → String) (f : Json → CbResult) (n callIdx : Nat)
    (input : WfInput) (lj : Option Json)
    (hd : (_parse_json loads (peer callIdx)).isDict = true)
    (hs : ((_parse_json loads (peer callIdx)).getD "status" Json.null).truthy = true)
    (hnp : ((_parse_json loads (peer callIdx)).getD "status" Json.null).eqStr
      "plan_ready" = false)
    (hq : ((_parse_json loads (peer callIdx)).getD "questions" Json.null).truthy = true)
    (hraise : f (questionsValue (_parse_json loads (peer callIdx))) = CbResult.raises) :
    ((runReqAux loads peer (some f) (n+2) callIdx input lj).2).take 2 =
      [input, WfInput.payload defaultAnswersPayload] := by
  have hstep : roundStep loads (some f) (peer callIdx) =
      RoundOutcome.next defaultAnswersPayload := by
    unfold roundStep
    rw [if_neg (by simp [hd, hs]), if_neg (by simp [hnp]),
        if_neg (by simp [questionsValue, hq])]
    simp only [hraise]
  unfold runReqAux
  rw [hstep]
  obtain ⟨rest, hr⟩ := runReqAux_trace_cons loads peer (some f) n (callIdx+1)
    (WfInput.payload defaultAnswersPayload) (some (_parse_json loads (peer callIdx)))
  simp only [hr]
  rfl

/-- C4 witness: the amended theorem at a concrete raising callback and a
peer with one object question. -/
theorem c4_callback_exception_witness :
    ((runReqAux loadsOneQuestion (fun _ => "C") (some (fun _ => CbResult.raises)) 2 0
        (WfInput.initialDoc "doc") none).2).take 2 =
      [WfInput.initialDoc "doc", WfInput.payload defaultAnswersPayload] :=
  c4_callback_exception_default_payload loadsOneQuestion (fun _ => "C")
    (fun _ => CbResult.raises) 0 0 (WfInput.initialDoc "doc") none rfl rfl rfl rfl rfl

/-- C4 counterexample: with one outstanding question carrying a fallback
assumption and a callback that raises, the second analysis call's input is
the default payload with an EMPTY answers list — not the one-answer-per-
question fallback payload the claim describes (which the code builds only
in the no-callback branch, as the last conjunct shows). -/
theorem c4_counterexample_empty_answers_after_raise :
    (run_requirement_workflow loadsOneQuestion (fun _ => "C")
        (some (fun _ => CbResult.raises)) "doc" 2).2 =
      [WfInput.initialDoc "doc", WfInput.payload defaultAnswersPayload] ∧
    respOneQuestion.getD "questions" Json.null = Json.arr [qFallback] ∧
    defaultAnswersPayload.getD "answers" Json.null = Json.arr [] ∧
    fallbackAnswers [qFallback] =
      [Json.obj [("id", Json.str "q1"), ("answer", Json.str "assume latest LTS")]] :=
  ⟨rfl, rfl, rfl, rfl⟩

/-- A dict with a truthy `status` value is non-empty, hence truthy itself
(so `if last_json:` takes the forced-convergence branch). -/
lemma truthy_of_dict_status (d : Json) (hd : d.isDict = true)
    (hs : (d.getD "status" Json.null).truthy = true) : d.truthy = true := by
  cases d with
  | obj kvs =>
    cases kvs with
    | nil => simp [Json.getD, Json.truthy] at hs
    | cons kv rest => simp [Json.truthy]
  | null => simp [Json.isDict] at hd
  | bool b => simp [Json.isDict] at hd
  | num n => simp [Json.isDict] at hd
  | str s => simp [Json.isDict] at hd
  | arr xs => simp [Json.isDict] at hd

/-- C5 (amended): when the round budget is exhausted after at least one
parsed document, the loop returns the forced-convergence document built
from the last-seen parse: status `plan_ready`, the last-seen version,
summary, stages and narrative carried forward, and — as `forcedDoc`
exhibits — one assumption per object-shaped outstanding question, each with
`risk_level: "high"`, the fixed rollback hint, and text equal to the
question's `fallback_assumption` when that field is present (a default
placeholder otherwise).  The original "exactly one assumption per
outstanding question, each carrying the question's fallback-assumption
text" is refuted by `c5_counterexample_nondict_question_dropped`:
non-object questions produce no assumption at all. -/
theorem c5_forced_convergence_shape (loads : String → Option Json)
    (peer : Nat → String) (ask : Option (Json → CbResult)) (doc : String)
    (N : Nat) (qs : List Json) (hN : 0 < N)
    (hvalid : ∀ k, k < N → validNonReady loads (peer k) = true)
    (hqs : pyIter (forcedQuestionsValue (_parse_json loads (peer (N-1)))) = some qs) :
    (run_requirement_workflow loads peer ask doc N).1 =
      Except.ok (forcedDoc (_parse_json loads (peer (N-1))) qs) := by
  have h := (runReqAux_forced_of_valid loads peer ask N 0 (WfInput.initialDoc doc) none
    (fun k hk => by simpa using hvalid k hk)).2
  unfold run_requirement_workflow
  rw [h]
  have hlast : lastAfter loads peer 0 N none =
      some (_parse_json loads (peer (N-1))) := by
    cases N with
    | zero => omega
    | succ m => simp [lastAfter]
  rw [hlast]
  have hv := hvalid (N-1) (by omega)
  unfold validNonReady at hv
  simp only [Bool.and_eq_true] at hv
  have ht := truthy_of_dict_status _ hv.1.1.1 hv.1.1.2
  show (if (_parse_json loads (peer (N-1))).truthy = true then
      match pyIter (forcedQuestionsValue (_parse_json loads (peer (N-1)))) with
      | none => Except.error PyErr.typeError
      | some qs2 => Except.ok (forcedDoc (_parse_json loads (peer (N-1))) qs2)
      else Except.ok noOutputError) = _
  rw [if_pos ht, hqs]

/-- C5 witness: a one-round run against a rich clarification response; the
forced document carries one `risk_level: "high"` assumption holding the
question's fallback text, and the last-seen stages, summary and narrative. -/
theorem c5_forced_convergence_witness :
    ((run_requirement_workflow loadsRich (fun _ => "W") none "doc" 1).1 =
      Except.ok (forcedDoc respRich [qFallback])) ∧
    forcedDoc respRich [qFallback] =
      Json.obj [("version", Json.str "1.0"),
                ("status", Json.str "plan_ready"),
                ("requirement_summary", Json.str "a summary"),
                ("assumptions", Json.arr [Json.obj
                  [("text", Json.str "assume latest LTS"),
                   ("risk_level", Json.str "high"),
                   ("rollback_hint", Json.str "待获答复后修正计划")]]),
                ("stages", Json.arr [Json.obj [("name", Json.str "build")]]),
                ("plan_markdown", Json.str "# plan")] :=
  ⟨c5_forced_convergence_shape loadsRich (fun _ => "W") none "doc" 1 [qFallback]
    (by decide) (by decide) rfl, rfl⟩

/-- C5 counterexample: with a single outstanding question that is a bare
string rather than an object, forced convergence produces an EMPTY
assumptions list — not one assumption per outstanding question as
claimed. -/
theorem c5_counterexample_nondict_question_dropped :
    (run_requirement_workflow loadsStrQuestion (fun _ => "S") none "doc" 1).1 =
      Except.ok (forcedDoc respStrQuestion [Json.str "which database?"]) ∧
    (forcedDoc respStrQuestion [Json.str "which database?"]).getD "assumptions"
      Json.null = Json.arr [] ∧
    respStrQuestion.getD "questions" Json.null = Json.arr [Json.str "which database?"] :=
  ⟨rfl, rfl, rfl⟩

/-- The per-stage retry loop makes at most `fuel` `dev_run` calls. -/
lemma stageLoop_calls_le (loads : String → Option Json) (devPeer : Nat → String)
    (name : Json) : ∀ (fuel ci : Nat), (stageLoop loads devPeer name fuel ci).2 ≤ fuel := by
  intro fuel
  induction fuel with
  | zero => intro ci; simp [stageLoop]
  | succ f ih =>
    intro ci
    unfold stageLoop
    cases hrs : reportSuccess (_parse_json loads (devPeer ci)) with
    | true =>
      rw [if_pos rfl]
      simp
    | false =>
      rw [if_neg (by simp)]
      cases f with
      | zero => simp
      | succ g =>
        have := ih (ci+1)
        simp only []
        omega

/-- With a positive attempt budget, the per-stage loop records exactly one
well-shaped entry for the stage. -/
lemma stageLoop_entry (loads : String → Option Json) (devPeer : Nat → String)
    (st : Json) : ∀ (fuel ci : Nat), 0 < fuel →
    ∃ e, (stageLoop loads devPeer (st.getD "name" Json.null) fuel ci).1 = some e ∧
      entryShape st e := by
  intro fuel
  induction fuel with
  | zero => intro ci h; omega
  | succ f ih =>
    intro ci _
    unfold stageLoop
    cases hrs : reportSuccess (_parse_json loads (devPeer ci)) with
    | true =>
      rw [if_pos rfl]
      exact ⟨_, rfl, rfl, Or.inl ⟨rfl, hrs⟩⟩
    | false =>
      rw [if_neg (by simp)]
      cases f with
      | zero => exact ⟨_, rfl, rfl, Or.inr ⟨rfl, rfl, hrs⟩⟩
      | succ g => exact ih (ci+1) (by omega)

/-- Per-stage reports in plan order: one well-shaped entry per object-shaped
stage, and a call budget bounded by `maxAttempts` per such stage. -/
lemma runStages_shape (loads : String → Option Json) (devPeer : Nat → String)
    (maxA : Nat) (hmax : 0 < maxA) :
    ∀ (sts : List Json) (ci : Nat),
      List.Forall₂ entryShape (sts.filter (fun s => s.isDict))
        (runStages loads devPeer maxA sts ci).1 ∧
      (runStages loads devPeer maxA sts ci).2 ≤
        maxA * (sts.filter (fun s => s.isDict)).length := by
  intro sts
  induction sts with
  | nil =>
    intro ci
    exact ⟨List.Forall₂.nil, by simp [runStages]⟩
  | cons st rest ih =>
    intro ci
    cases hd : st.isDict with
    | false =>
      unfold runStages
      rw [if_neg (by simp [hd])]
      have h2 := ih ci
      simpa [List.filter_cons, hd] using h2
    | true =>
      unfold runStages
      rw [if_pos hd]
      obtain ⟨e, he, hshape⟩ := stageLoop_entry loads devPeer st maxA ci hmax
      have hrest := ih (ci + (stageLoop loads devPeer (st.getD "name" Json.null) maxA ci).2)
      constructor
      · simp only [List.filter_cons, hd, if_pos]
        rw [he]
        exact List.Forall₂.cons hshape hrest.1
      · have hle := stageLoop_calls_le loads devPeer (st.getD "name" Json.null) maxA ci
        have hr2 := hrest.2
        simp only [List.filter_cons, hd, if_pos, List.length_cons]
        have : maxA * ((rest.filter (fun s => s.isDict)).length + 1) =
            maxA * (rest.filter (fun s => s.isDict)).length + maxA := by ring
        omega

/-- C6: for every plan whose `stages` value is iterable and every positive
attempt bound, the Stage Execution Loop returns one summary entry per
object-shaped stage, in plan order; each entry names its stage and is
either `complete` with a truthy-success parsed report (after which the
stage is retried no further) or `failed` with the `rollback_or_degrade`
decision and a non-successful last report; a failed stage does not stop
later stages (the `Forall₂` covers the whole filtered list); and the
`dev_run` tool is called at most `maxStageAttempts` times per stage —
at most `maxA * number-of-stages` in total, with the per-stage bound given
by the last conjunct. -/
theorem c6_stage_execution_summary (loads : String → Option Json)
    (devPeer : Nat → String) (rj : Json) (maxA : Nat) (sts : List Json)
    (hmax : 0 < maxA) (hiter : pyIter (stagesValue rj) = some sts) :
    (run_stage_execution loads devPeer rj maxA).1 =
      Except.ok (Json.obj [("execution_summary",
        Json.arr (runStages loads devPeer maxA sts 0).1)]) ∧
    List.Forall₂ entryShape (sts.filter (fun s => s.isDict))
      (runStages loads devPeer maxA sts 0).1 ∧
    (runStages loads devPeer maxA sts 0).1.length =
      (sts.filter (fun s => s.isDict)).length ∧
    (run_stage_execution loads devPeer rj maxA).2 ≤
      maxA * (sts.filter (fun s => s.isDict)).length ∧
    (∀ (name : Json) (fuel ci : Nat), (stageLoop loads devPeer name fuel ci).2 ≤ fuel) := by
  have hs := runStages_shape loads devPeer maxA hmax sts 0
  refine ⟨?_, hs.1, (List.Forall₂.length_eq hs.1).symm, ?_,
    fun name fuel ci => stageLoop_calls_le loads devPeer name fuel ci⟩
  · unfold run_stage_execution
    rw [hiter]
  · unfold run_stage_execution
    rw [hiter]
    exact hs.2

/-- C6 witness: the 3-stage plan where stage 2 always fails: the summary
has exactly three entries in plan order — `complete`, `failed` (with
decision `rollback_or_degrade`), `complete`. -/
theorem c6_stage_execution_witness :
    List.Forall₂ entryShape ([stage1, stage2, stage3].filter (fun s => s.isDict))
      (runStages loadsDev devPeer3 3 [stage1, stage2, stage3] 0).1 ∧
    (run_stage_execution loadsDev devPeer3 plan3 3).1 =
      Except.ok (Json.obj [("execution_summary", Json.arr
        [completeEntry (Json.str "s1") devOk,
         failedEntry (Json.str "s2") devFail,
         completeEntry (Json.str "s3") devOk])]) :=
  ⟨(c6_stage_execution_summary loadsDev devPeer3 plan3 3 [stage1, stage2, stage3]
      (by decide) rfl).2.1, rfl⟩
